import Mathlib

/-!
Shallow embedding of `cmd/api/main.go` of the greenlight API server:
configuration resolution (environment variables, command-line flags,
built-in defaults), database pool initialization (`openDB`), the
background-task wait-group tracker, startup sequencing (`init` / `main`)
and the `expvar` diagnostics registry, together with theorems settling
the specification claims about them.

External library calls (godotenv, database/sql, time.ParseDuration,
the SMTP mailer) are modelled as explicit parameters; machine integers
are modelled as unbounded `Int` since no claim depends on overflow.
-/

namespace Greenlight

/-- The application version constant (`const version = "1.0.0"`). -/
def version : String := "1.0.0"

/-- The process environment: `os.Getenv` returns the empty string for an
unset variable, so an environment is a total map to strings with `""`
standing for "unset or set to empty". -/
def Env : Type := String → String

/-- Value of a decimal digit character, `none` for non-digits. -/
def digitVal (c : Char) : Option Nat :=
  if '0' ≤ c ∧ c ≤ '9' then some (c.toNat - '0'.toNat) else none

/-- Accumulating parse of a digit string; fails on any non-digit. -/
def parseDigitsAux : List Char → Nat → Option Nat
  | [], acc => some acc
  | c :: cs, acc =>
    match digitVal c with
    | some d => parseDigitsAux cs (acc * 10 + d)
    | none => none

/-- Parse a nonempty all-digit string. -/
def parseDigits : List Char → Option Nat
  | [] => none
  | l => parseDigitsAux l 0

/-- Go `strconv.Atoi`: optional sign followed by at least one decimal
digit; anything else is a parse error (`none`). Range errors on 64-bit
ints are not modelled — no claim involves values near 2^63. -/
def atoi (s : String) : Option Int :=
  match s.data with
  | [] => none
  | '+' :: rest => (parseDigits rest).map Int.ofNat
  | '-' :: rest => (parseDigits rest).map (fun n => -(n : Int))
  | l => (parseDigits l).map Int.ofNat

/-- Go `strconv.ParseBool`: accepts exactly 1, t, T, TRUE, true, True,
0, f, F, FALSE, false, False. -/
def parseBool (s : String) : Option Bool :=
  if s = "1" ∨ s = "t" ∨ s = "T" ∨ s = "TRUE" ∨ s = "true" ∨ s = "True" then
    some true
  else if s = "0" ∨ s = "f" ∨ s = "F" ∨ s = "FALSE" ∨ s = "false" ∨ s = "False" then
    some false
  else none

/-- Split a character list at every occurrence of `sep`, keeping empty
pieces; the empty list yields one empty piece. -/
def splitOnChar (sep : Char) : List Char → List (List Char)
  | [] => [[]]
  | c :: cs =>
    if c = sep then [] :: splitOnChar sep cs
    else
      match splitOnChar sep cs with
      | [] => [[c]]
      | p :: ps => (c :: p) :: ps

/-- Go `strings.Split(s, sep)` for a single-character separator (the
source only ever splits on ","): all substrings between separators, empty
pieces preserved, and `Split("", sep) = [""]`. -/
def stringsSplit (s : String) (sep : Char) : List String :=
  (splitOnChar sep s.data).map List.asString

/-- `config.db`: note the pool limits are *string* fields in the source. -/
structure DBConfig where
  dsn : String
  maxOpenConns : String
  maxIdleConns : String
  maxIdleTime : String
deriving DecidableEq, Repr

/-- `config.limiter`. -/
structure LimiterConfig where
  rps : Int
  burst : Int
  enabled : Bool
deriving DecidableEq, Repr

/-- `config.smtp`. -/
structure SMTPConfig where
  host : String
  port : Int
  username : String
  password : String
  sender : String
deriving DecidableEq, Repr

/-- `config.cors`. The Go zero value of the slice is nil, modelled as `[]`. -/
structure CORSConfig where
  trustedOrigins : List String
deriving DecidableEq, Repr

/-- The `config` struct of `cmd/api/main.go`. -/
structure config where
  port : String
  env : String
  db : DBConfig
  limiter : LimiterConfig
  smtp : SMTPConfig
  cors : CORSConfig
deriving DecidableEq, Repr

/-- `getEnv`: the environment value when non-empty, otherwise the default. -/
def getEnv (env : Env) (key : String) (value : String) : String :=
  if env key ≠ "" then env key else value

/-- `getIntEnv`: the default when the variable is unset/empty; a parsed
integer when well-formed; otherwise `log.Fatal` ("failed to parse int env
variable"), modelled as `Except.error`. -/
def getIntEnv (env : Env) (key : String) (value : Int) : Except String Int :=
  if env key = "" then .ok value
  else
    match atoi (env key) with
    | some n => .ok n
    | none => .error "failed to parse int env variable"

/-- `getBoolEnv`: like `getIntEnv` but with `strconv.ParseBool`. -/
def getBoolEnv (env : Env) (key : String) (value : Bool) : Except String Bool :=
  if env key = "" then .ok value
  else
    match parseBool (env key) with
    | some b => .ok b
    | none => .error "failed to parse bool env variable"

/-- The flag default values computed during flag *registration* in `main`,
before `flag.Parse` runs. The string defaults never fail; the int/bool
defaults call `getIntEnv`/`getBoolEnv`, which `log.Fatal` on a malformed
value. Field values transcribe the `flag.XVar` calls of the source,
including the env-variable names actually used there. -/
structure Defaults where
  port : String
  env : String
  dbDsn : String
  dbMaxOpenConns : String
  dbMaxIdleConns : String
  dbMaxIdleTime : String
  limiterRps : Int
  limiterBurst : Int
  limiterEnabled : Bool
  smtpHost : String
  smtpPort : Int
  smtpUsername : String
  smtpPassword : String
  smtpSender : String
deriving DecidableEq, Repr

/-- The flag-registration phase of `main`: evaluates every default, in the
source order of the fallible ones (limiter-rps, limiter-burst,
limiter-enabled, smtp-port); the first malformed int/bool environment value
aborts the process before `flag.Parse`. -/
def registerDefaults (env : Env) : Except String Defaults :=
  match getIntEnv env "LIMITER_RPS" 2 with
  | .error e => .error e
  | .ok rps =>
    match getIntEnv env "LIMITER_BURST" 4 with
    | .error e => .error e
    | .ok burst =>
      match getBoolEnv env "LIMITER_ENABLED" true with
      | .error e => .error e
      | .ok enabled =>
        match getIntEnv env "SMTP_PORT" 25 with
        | .error e => .error e
        | .ok smtpPort =>
          .ok
            { port := getEnv env "PORT" "4000"
              env := getEnv env "ENVIRONMENT" "development"
              dbDsn := env "GREENLIGHT_DB_DSN"
              dbMaxOpenConns := getEnv env "DB_MAX_IDLE_TIME" "25"
              dbMaxIdleConns := getEnv env "DB_MAX_IDLE_TIME" "25"
              dbMaxIdleTime := getEnv env "DB_MAX_IDLE_TIME" "15m"
              limiterRps := rps
              limiterBurst := burst
              limiterEnabled := enabled
              smtpHost := getEnv env "SMTP_HOST" ""
              smtpPort := smtpPort
              smtpUsername := getEnv env "SMTP_USERNAME" ""
              smtpPassword := getEnv env "SMTP_PASSWORD" ""
              smtpSender := getEnv env "SMTP_SENDER" "15m" }

/-- The command-line flags supplied on this invocation, already typed the
way Go's `flag` package types them (`flag.Parse` itself aborts on a
malformed int/bool *flag* value, so a parsed flag set carries typed
values); `none` means the flag was not given. `corsTrustedOrigins` keeps
the raw string handed to the `flag.Func` callback. -/
structure Flags where
  port : Option String := none
  env : Option String := none
  dbDsn : Option String := none
  dbMaxOpenConns : Option String := none
  dbMaxIdleConns : Option String := none
  dbMaxIdleTime : Option String := none
  limiterRps : Option Int := none
  limiterBurst : Option Int := none
  limiterEnabled : Option Bool := none
  smtpHost : Option String := none
  smtpPort : Option Int := none
  smtpUsername : Option String := none
  smtpPassword : Option String := none
  smtpSender : Option String := none
  corsTrustedOrigins : Option String := none
deriving DecidableEq, Repr

/-- No flags given. -/
def flagsNone : Flags := {}

/-- The `flag.Parse` phase: each supplied flag overwrites the registered
default. The `cors-trusted-origins` callback runs only when that flag
occurs on the command line, and — as in the source — ignores the value it
was handed (`val` is unused) and instead splits the `CORS_TRUSTED_ORIGIN`
environment variable (default "*") on commas; when the flag is absent the
callback never runs and the slice keeps its nil zero value. -/
def applyFlags (d : Defaults) (env : Env) (fl : Flags) : config :=
  { port := fl.port.getD d.port
    env := fl.env.getD d.env
    db :=
      { dsn := fl.dbDsn.getD d.dbDsn
        maxOpenConns := fl.dbMaxOpenConns.getD d.dbMaxOpenConns
        maxIdleConns := fl.dbMaxIdleConns.getD d.dbMaxIdleConns
        maxIdleTime := fl.dbMaxIdleTime.getD d.dbMaxIdleTime }
    limiter :=
      { rps := fl.limiterRps.getD d.limiterRps
        burst := fl.limiterBurst.getD d.limiterBurst
        enabled := fl.limiterEnabled.getD d.limiterEnabled }
    smtp :=
      { host := fl.smtpHost.getD d.smtpHost
        port := fl.smtpPort.getD d.smtpPort
        username := fl.smtpUsername.getD d.smtpUsername
        password := fl.smtpPassword.getD d.smtpPassword
        sender := fl.smtpSender.getD d.smtpSender }
    cors :=
      { trustedOrigins :=
          match fl.corsTrustedOrigins with
          | some _ => stringsSplit (getEnv env "CORS_TRUSTED_ORIGIN" "*") ','
          | none => [] } }

/-- Configuration resolution as `main` performs it: flag registration
(which may abort on a malformed int/bool environment value), then
`flag.Parse` applying the supplied flags over the defaults. -/
def resolveConfig (env : Env) (fl : Flags) : Except String config :=
  match registerDefaults env with
  | .error e => .error e
  | .ok d => .ok (applyFlags d env fl)

/-- The external calls `openDB` makes, abstracted as parameters: `sql.Open`
(fallible handle creation from a DSN), `time.ParseDuration` (nanoseconds or
a parse error), and `db.PingContext` given a context timeout in seconds. -/
structure DBOps (H : Type) where
  sqlOpen : String → Except String H
  parseDuration : String → Except String Int
  ping : H → Int → Except String Unit

/-- The observable outcome of one `openDB` run: the returned pair
`(handle, err)` — Go returns `(nil, err)` on failure and `(db, nil)` on
success — together with the pool limits actually applied via
`SetMaxOpenConns` / `SetMaxIdleConns` / `SetConnMaxIdleTime` and the list
of liveness pings issued (each recorded with its context timeout in
seconds). -/
structure OpenDBTrace (H : Type) where
  handle : Option H
  err : Option String
  maxOpenConnsSet : Option Int
  maxIdleConnsSet : Option Int
  connMaxIdleTimeSet : Option Int
  pings : List Int

/-- `openDB` transcribed from the source: open the DSN; convert the two
string pool limits with `strconv.Atoi`, *discarding the error* (Go's Atoi
returns 0 alongside a syntax error, so a malformed limit silently becomes
0); apply the limits; parse the idle duration, failing on error; then
perform one ping bounded by a 5-second context timeout. -/
def openDB {H : Type} (ops : DBOps H) (cfg : config) : OpenDBTrace H :=
  match ops.sqlOpen cfg.db.dsn with
  | .error e =>
    { handle := none, err := some e, maxOpenConnsSet := none
      maxIdleConnsSet := none, connMaxIdleTimeSet := none, pings := [] }
  | .ok db =>
    let maxOpenCon := (atoi cfg.db.maxOpenConns).getD 0
    let maxIdleCon := (atoi cfg.db.maxIdleConns).getD 0
    match ops.parseDuration cfg.db.maxIdleTime with
    | .error e =>
      { handle := none, err := some e, maxOpenConnsSet := some maxOpenCon
        maxIdleConnsSet := some maxIdleCon, connMaxIdleTimeSet := none
        pings := [] }
    | .ok duration =>
      match ops.ping db 5 with
      | .error e =>
        { handle := none, err := some e, maxOpenConnsSet := some maxOpenCon
          maxIdleConnsSet := some maxIdleCon
          connMaxIdleTimeSet := some duration, pings := [5] }
      | .ok _ =>
        { handle := some db, err := none, maxOpenConnsSet := some maxOpenCon
          maxIdleConnsSet := some maxIdleCon
          connMaxIdleTimeSet := some duration, pings := [5] }

/-- The `sync.WaitGroup` held in `application.wg`, reduced to its counter. -/
structure Tracker where
  count : Nat
deriving DecidableEq, Repr

/-- A fresh wait group (`sync.WaitGroup{}`): counter zero. -/
def Tracker.zero : Tracker := ⟨0⟩

/-- `wg.Add Tracker.add`. -/
def Tracker.add (t : Tracker) (n : Nat) : Tracker := ⟨t.count + n⟩

/-- `wg.Done`: decrement by one. -/
def Tracker.done (t : Tracker) : Tracker := ⟨t.count - 1⟩

/-- Modelled from the spec: the background-task helper lives in a file of
this repository not under `src/` (only the `application.wg` field is);
per the spec it increments the wait group before launching the task and
runs the decrement in a deferred/recover block, so the decrement happens
whether the task body succeeds or fails. The task's success flag therefore
cannot affect the counter. -/
def background (t : Tracker) (taskSucceeds : Bool) : Tracker :=
  let afterAdd := t.add 1
  match taskSucceeds with
  | true => afterAdd.done
  | false => afterAdd.done

/-- Run a whole sequence of submitted background tasks to completion,
threading the tracker through. -/
def runAll (t : Tracker) (tasks : List Bool) : Tracker :=
  tasks.foldl background t

/-- Modelled from the spec: the shutdown drain (`app.wg.Wait()`, in a file
not under `src/`) returns exactly when the counter is zero. -/
def waitUnblocked (t : Tracker) : Bool := t.count == 0

/-- Outcome of the startup sequence. -/
inductive StartupResult where
  | fatalEnvFile
  | fatalConfig (msg : String)
  | fatalDB (msg : String)
  | serving (cfg : config)

/-- Startup as `init` + `main` sequence it: `godotenv.Load(".env")`
(its success abstracted as `envFileLoads`) aborts the process on failure
before anything else runs; then configuration resolution (which may abort
on a malformed env value); then `openDB`, aborting via
`logger.PrintFatal` when it returns an error; only then serving begins. -/
def startup (H : Type) (envFileLoads : Bool) (env : Env) (fl : Flags)
    (ops : DBOps H) : StartupResult :=
  match envFileLoads with
  | false => .fatalEnvFile
  | true =>
    match resolveConfig env fl with
    | .error e => .fatalConfig e
    | .ok cfg =>
      let r := openDB ops cfg
      match r.handle with
      | none => .fatalDB (r.err.getD "")
      | some _ => .serving cfg

/-- State observable by the diagnostics accessors at one instant:
`runtime.NumGoroutine()`, `db.Stats()` (abstracted to one integer, e.g.
open connections) and `time.Now().Unix()`. -/
structure DiagState where
  numGoroutine : Int
  dbStats : Int
  nowUnix : Int
deriving DecidableEq, Repr

/-- A value served by the diagnostics endpoint. -/
inductive DiagValue where
  | str (s : String)
  | int (n : Int)
deriving DecidableEq, Repr

/-- An `expvar` registry entry: either a string snapshotted at
registration (`expvar.NewString(...).Set(...)`) or a function evaluated
at every read (`expvar.Publish(name, expvar.Func(...))`). -/
inductive ExpvarEntry where
  | constStr (value : String)
  | func (f : DiagState → DiagValue)

/-- The `version` entry: a string set once at registration. -/
def versionVar : ExpvarEntry := .constStr version

/-- The `goroutines` entry: `expvar.Func` reading the goroutine count. -/
def goroutinesVar : ExpvarEntry := .func (fun s => .int s.numGoroutine)

/-- The `database` entry: `expvar.Func` reading `db.Stats()`. -/
def databaseVar : ExpvarEntry := .func (fun s => .int s.dbStats)

/-- The `timestamp` entry: `expvar.Func` reading `time.Now().Unix()`. -/
def timestampVar : ExpvarEntry := .func (fun s => .int s.nowUnix)

/-- The diagnostics registry built in `main`, in registration order. -/
def publishedVars : List (String × ExpvarEntry) :=
  [("version", versionVar), ("goroutines", goroutinesVar),
   ("database", databaseVar), ("timestamp", timestampVar)]

/-- Polling one entry at one instant: a constant entry yields its
registration-time string, a function entry is evaluated on the state
current at the poll. -/
def readVar : ExpvarEntry → DiagState → DiagValue
  | .constStr v, _ => .str v
  | .func f, s => f s

/-! ### Concrete inputs used by witnesses and counterexamples -/

/-- An environment with every variable unset. -/
def envEmpty : Env := fun _ => ""

/-- Environment holding only `CORS_TRUSTED_ORIGIN=http://b.com`. -/
def envCorsB : Env := fun k => if k = "CORS_TRUSTED_ORIGIN" then "http://b.com" else ""

/-- Environment with distinct values for the three pool variables:
`DB_MAX_OPEN_CONNS=10`, `DB_MAX_IDLE_CONNS=7`, `DB_MAX_IDLE_TIME=15m`. -/
def envPool : Env := fun k =>
  if k = "DB_MAX_OPEN_CONNS" then "10"
  else if k = "DB_MAX_IDLE_CONNS" then "7"
  else if k = "DB_MAX_IDLE_TIME" then "15m"
  else ""

/-- Environment holding only the malformed `LIMITER_RPS=abc`. -/
def envBadRps : Env := fun k => if k = "LIMITER_RPS" then "abc" else ""

/-- Command line `-cors-trusted-origins=http://a.com`. -/
def flagsCorsA : Flags := { corsTrustedOrigins := some "http://a.com" }

/-- Command line `-db-max-open-conns=abc`. -/
def flagsBadOpen : Flags := { dbMaxOpenConns := some "abc" }

/-- A database backend on which opening, duration parsing (15 minutes in
nanoseconds) and pinging all succeed. -/
def opsOK : DBOps Unit :=
  { sqlOpen := fun _ => .ok ()
    parseDuration := fun _ => .ok 900000000000
    ping := fun _ _ => .ok () }

/-! ### Helper lemmas -/

/-- A present-but-malformed integer environment value makes `getIntEnv`
abort with the fatal parse error. -/
theorem getIntEnv_malformed (env : Env) (k : String) (d : Int)
    (h1 : env k ≠ "") (h2 : atoi (env k) = none) :
    getIntEnv env k d = .error "failed to parse int env variable" := by
  simp [getIntEnv, h1, h2]

/-- A present-but-malformed boolean environment value makes `getBoolEnv`
abort with the fatal parse error. -/
theorem getBoolEnv_malformed (env : Env) (k : String) (d : Bool)
    (h1 : env k ≠ "") (h2 : parseBool (env k) = none) :
    getBoolEnv env k d = .error "failed to parse bool env variable" := by
  simp [getBoolEnv, h1, h2]

/-- The smtp-sender default registered by `registerDefaults` is
`getEnv env "SMTP_SENDER" "15m"`. -/
theorem registerDefaults_sender (env : Env) (d : Defaults)
    (hr : registerDefaults env = .ok d) :
    d.smtpSender = getEnv env "SMTP_SENDER" "15m" := by
  unfold registerDefaults at hr
  cases hA : getIntEnv env "LIMITER_RPS" 2 <;> simp [hA] at hr
  cases hB : getIntEnv env "LIMITER_BURST" 4 <;> simp [hB] at hr
  cases hC : getBoolEnv env "LIMITER_ENABLED" true <;> simp [hC] at hr
  cases hD : getIntEnv env "SMTP_PORT" 25 <;> simp [hD] at hr
  subst hr
  rfl

/-- One background submission leaves the outstanding count unchanged,
whether the task body succeeds or fails. -/
theorem background_count (t : Tracker) (task : Bool) :
    (background t task).count = t.count := by
  cases task <;> simp [background, Tracker.add, Tracker.done]

/-- Running any task sequence leaves the outstanding count unchanged. -/
theorem runAll_count (tasks : List Bool) :
    ∀ t : Tracker, (runAll t tasks).count = t.count := by
  induction tasks with
  | nil => intro t; rfl
  | cons task rest ih =>
    intro t
    have h := ih (background t task)
    simpa [runAll, background_count] using h

/-! ### Claim theorems -/

/-- C1: the claim says that for every recognized setting, a supplied flag
value wins over a supplied environment value — including the trusted CORS
origins setting. This theorem evaluates the code at the failing input:
with `-cors-trusted-origins=http://a.com` on the command line and
`CORS_TRUSTED_ORIGIN=http://b.com` in the environment, the resolved
trusted-origins list is `["http://b.com"]` (the environment value), not
the flag value `["http://a.com"]`: the `flag.Func` callback discards the
flag's value. -/
theorem C1_cors_flag_ignored :
    ∃ cfg, resolveConfig envCorsB flagsCorsA = Except.ok cfg ∧
      cfg.cors.trustedOrigins = ["http://b.com"] ∧
      cfg.cors.trustedOrigins ≠ ["http://a.com"] := by
  refine ⟨_, rfl, by decide, by decide⟩

/-- C2: the claim says a present-but-malformed scalar value fails
resolution fatally, and in particular a malformed max-open-connections
value never yields a started pool with a substituted limit. This theorem
evaluates the code at the failing input `-db-max-open-conns=abc` (with a
reachable database): resolution succeeds, `openDB` discards the
`strconv.Atoi` error, applies the substituted limit 0 via
`SetMaxOpenConns`, and hands back a live handle with no error. -/
theorem C2_substituted_pool_limit :
    ∃ cfg, resolveConfig envEmpty flagsBadOpen = Except.ok cfg ∧
      cfg.db.maxOpenConns = "abc" ∧
      (openDB opsOK cfg).handle = some () ∧
      (openDB opsOK cfg).err = none ∧
      (openDB opsOK cfg).maxOpenConnsSet = some 0 := by
  refine ⟨_, rfl, by decide, by decide, by decide, by decide⟩

/-- C3: the claim says each setting reads its own equivalently named
environment variable — max-open-connections and max-idle-connections from
distinct max-open and max-idle variables, not from the max-idle-time
variable. This theorem evaluates the code at the failing input
`DB_MAX_OPEN_CONNS=10`, `DB_MAX_IDLE_CONNS=7`, `DB_MAX_IDLE_TIME=15m`
with no flags: both pool-limit settings resolve to `"15m"`, the value of
`DB_MAX_IDLE_TIME`, and the dedicated variables are never consulted. -/
theorem C3_conflated_env_vars :
    ∃ cfg, resolveConfig envPool flagsNone = Except.ok cfg ∧
      cfg.db.maxOpenConns = "15m" ∧
      cfg.db.maxIdleConns = "15m" ∧
      cfg.db.maxOpenConns ≠ "10" ∧
      cfg.db.maxIdleConns ≠ "7" := by
  refine ⟨_, rfl, by decide, by decide, by decide, by decide⟩

/-- C4: the claim says that with neither flag nor environment value the
resolved trusted-origins list is exactly `["*"]`. This theorem evaluates
the code at that failing input: when the `cors-trusted-origins` flag is
absent its `flag.Func` callback never runs, so the list keeps its nil
zero value `[]`, not the wildcard default. -/
theorem C4_cors_default_not_wildcard :
    ∃ cfg, resolveConfig envEmpty flagsNone = Except.ok cfg ∧
      cfg.cors.trustedOrigins = [] ∧
      cfg.cors.trustedOrigins ≠ ["*"] := by
  refine ⟨_, rfl, by decide, by decide⟩

/-- C5: `openDB` issues at most one liveness ping, always bounded by the
fixed 5-second timeout; the ping happens exactly when opening and
idle-duration parsing both succeeded; an error is returned exactly when no
handle is (so a half-open pool never leaks); and a handle is returned
exactly when opening, duration parsing and the ping all succeed. -/
theorem C5_openDB_validated (H : Type) (ops : DBOps H) (cfg : config) :
    ((openDB ops cfg).pings = [] ∨ (openDB ops cfg).pings = [5]) ∧
    ((openDB ops cfg).pings = [5] ↔
      ∃ db, ops.sqlOpen cfg.db.dsn = .ok db ∧
        ∃ d, ops.parseDuration cfg.db.maxIdleTime = .ok d) ∧
    ((openDB ops cfg).err = none ↔ ((openDB ops cfg).handle).isSome) ∧
    (((openDB ops cfg).handle).isSome ↔
      ∃ db, ops.sqlOpen cfg.db.dsn = .ok db ∧
        (∃ d, ops.parseDuration cfg.db.maxIdleTime = .ok d) ∧
        ops.ping db 5 = .ok ()) := by
  cases h1 : ops.sqlOpen cfg.db.dsn with
  | error e => simp [openDB, h1]
  | ok db =>
    cases h2 : ops.parseDuration cfg.db.maxIdleTime with
    | error e => simp [openDB, h1, h2]
    | ok d =>
      cases h3 : ops.ping db 5 with
      | error e => simp [openDB, h1, h2, h3]
      | ok u => cases u; simp [openDB, h1, h2, h3]

/-- C6: starting from a fresh tracker, any sequence of submitted
background tasks — whatever subset of them fails — returns the
outstanding count to exactly zero (each increment is paired with exactly
one decrement, stated by `background_count` applied per task), and the
shutdown drain wait unblocks precisely on a zero count. -/
theorem C6_tracker_drains (tasks : List Bool) :
    (runAll Tracker.zero tasks).count = 0 ∧
    waitUnblocked (runAll Tracker.zero tasks) = true ∧
    (∀ t task, (background t task).count = t.count) ∧
    (∀ t : Tracker, waitUnblocked t = true ↔ t.count = 0) := by
  refine ⟨?_, ?_, background_count, ?_⟩
  · simpa [Tracker.zero] using runAll_count tasks Tracker.zero
  · simp [waitUnblocked, runAll_count, Tracker.zero]
  · intro t; simp [waitUnblocked]

/-- C7: when the `.env` file fails to load, `init` aborts the process
fatally; the outcome is `fatalEnvFile` no matter what the environment,
flags or database backend would have said — configuration resolution,
pool initialization and serving are never reached. -/
theorem C7_env_file_fatal (H : Type) (env : Env) (fl : Flags)
    (ops : DBOps H) :
    startup H false env fl ops = StartupResult.fatalEnvFile := rfl

/-- C8: every diagnostics accessor except `version` is registered as a
function evaluated at read time: polling `goroutines`, `database` or
`timestamp` at any two instants yields exactly the state current at each
poll, while `version` yields the registration-time constant at both. -/
theorem C8_diagnostics_live (s₁ s₂ : DiagState) :
    readVar goroutinesVar s₁ = .int s₁.numGoroutine ∧
    readVar goroutinesVar s₂ = .int s₂.numGoroutine ∧
    readVar databaseVar s₁ = .int s₁.dbStats ∧
    readVar databaseVar s₂ = .int s₂.dbStats ∧
    readVar timestampVar s₁ = .int s₁.nowUnix ∧
    readVar timestampVar s₂ = .int s₂.nowUnix ∧
    readVar versionVar s₁ = .str version ∧
    readVar versionVar s₂ = .str version := by
  refine ⟨rfl, rfl, rfl, rfl, rfl, rfl, rfl, rfl⟩

/-- C9: a present-but-malformed integer or boolean environment value for
limiter-rps, limiter-burst, limiter-enabled or smtp-port aborts the
process fatally during flag registration (`registerDefaults` errors), and
the whole resolution fails with that same error for *every* possible
command line — a well-formed flag override cannot rescue startup. -/
theorem C9_malformed_env_fatal (env : Env)
    (h : (env "LIMITER_RPS" ≠ "" ∧ atoi (env "LIMITER_RPS") = none) ∨
         (env "LIMITER_BURST" ≠ "" ∧ atoi (env "LIMITER_BURST") = none) ∨
         (env "LIMITER_ENABLED" ≠ "" ∧ parseBool (env "LIMITER_ENABLED") = none) ∨
         (env "SMTP_PORT" ≠ "" ∧ atoi (env "SMTP_PORT") = none)) :
    ∃ e, registerDefaults env = .error e ∧
      ∀ fl : Flags, resolveConfig env fl = .error e := by
  have key : ∃ e, registerDefaults env = Except.error e := by
    rcases h with ⟨h1, h2⟩ | ⟨h1, h2⟩ | ⟨h1, h2⟩ | ⟨h1, h2⟩
    · exact ⟨"failed to parse int env variable",
        by simp [registerDefaults, getIntEnv_malformed env _ 2 h1 h2]⟩
    · cases hA : getIntEnv env "LIMITER_RPS" 2 with
      | error e => exact ⟨e, by simp [registerDefaults, hA]⟩
      | ok rps =>
        exact ⟨"failed to parse int env variable", by
          simp [registerDefaults, hA, getIntEnv_malformed env _ 4 h1 h2]⟩
    · cases hA : getIntEnv env "LIMITER_RPS" 2 with
      | error e => exact ⟨e, by simp [registerDefaults, hA]⟩
      | ok rps =>
        cases hB : getIntEnv env "LIMITER_BURST" 4 with
        | error e => exact ⟨e, by simp [registerDefaults, hA, hB]⟩
        | ok burst =>
          exact ⟨"failed to parse bool env variable", by
            simp [registerDefaults, hA, hB,
              getBoolEnv_malformed env _ true h1 h2]⟩
    · cases hA : getIntEnv env "LIMITER_RPS" 2 with
      | error e => exact ⟨e, by simp [registerDefaults, hA]⟩
      | ok rps =>
        cases hB : getIntEnv env "LIMITER_BURST" 4 with
        | error e => exact ⟨e, by simp [registerDefaults, hA, hB]⟩
        | ok burst =>
          cases hC : getBoolEnv env "LIMITER_ENABLED" true with
          | error e => exact ⟨e, by simp [registerDefaults, hA, hB, hC]⟩
          | ok enabled =>
            exact ⟨"failed to parse int env variable", by
              simp [registerDefaults, hA, hB, hC,
                getIntEnv_malformed env _ 25 h1 h2]⟩
  obtain ⟨e, he⟩ := key
  exact ⟨e, he, fun fl => by simp [resolveConfig, he]⟩

/-- Witness for C9 at the concrete input `LIMITER_RPS=abc` (all other
variables unset, arbitrary command line). -/
theorem C9_malformed_env_fatal_witness :
    ((envBadRps "LIMITER_RPS" ≠ "" ∧ atoi (envBadRps "LIMITER_RPS") = none) ∨
     (envBadRps "LIMITER_BURST" ≠ "" ∧ atoi (envBadRps "LIMITER_BURST") = none) ∨
     (envBadRps "LIMITER_ENABLED" ≠ "" ∧
        parseBool (envBadRps "LIMITER_ENABLED") = none) ∨
     (envBadRps "SMTP_PORT" ≠ "" ∧ atoi (envBadRps "SMTP_PORT") = none)) ∧
    (∃ e, registerDefaults envBadRps = .error e ∧
      ∀ fl : Flags, resolveConfig envBadRps fl = .error e) :=
  ⟨Or.inl (by decide), C9_malformed_env_fatal envBadRps (Or.inl (by decide))⟩

/-- C10: with `SMTP_SENDER` unset (or empty) and no `smtp-sender` flag,
the resolved outbound-mail sender is the literal string "15m"; and in
general `getEnv` treats a variable whose value is the empty string as
unset, substituting the supplied default. -/
theorem C10_sender_default_15m (env : Env) (fl : Flags)
    (h1 : env "SMTP_SENDER" = "") (h2 : fl.smtpSender = none) :
    (∀ cfg, resolveConfig env fl = .ok cfg → cfg.smtp.sender = "15m") ∧
    (∀ (e : Env) (k d : String), e k = "" → getEnv e k d = d) := by
  constructor
  · intro cfg hcfg
    cases hr : registerDefaults env with
    | error e => simp [resolveConfig, hr] at hcfg
    | ok d =>
      simp [resolveConfig, hr] at hcfg
      have hs := registerDefaults_sender env d hr
      rw [← hcfg]
      simp [applyFlags, h2, hs, getEnv, h1]
  · intro e k d hk
    simp [getEnv, hk]

/-- Witness for C10 at the concrete input: every variable unset and no
flags given. -/
theorem C10_sender_default_15m_witness :
    (∀ cfg, resolveConfig envEmpty flagsNone = .ok cfg →
        cfg.smtp.sender = "15m") ∧
    (∀ (e : Env) (k d : String), e k = "" → getEnv e k d = d) :=
  C10_sender_default_15m envEmpty flagsNone rfl rfl

end Greenlight
